import Mathlib

/-
Verification of the Checks evaluator plugin
(js/plugins/checks/src/evaluator_factory.ts) and the documented
Content Part response shape (docs/reference/js/ai/functions/index.md).

Shallow embedding conventions:
  * JS values exchanged with the providers are modelled by the `Json`
    inductive; a JS object is an association list of fields and `Json.null`
    stands for both JSON null and an absent / `undefined` field.
  * `client.request` (google-auth-library) is modelled by an oracle
    `http : HttpRequest → Except String Json` supplied to each function;
    a `.error e` outcome is a rejected promise carrying message `e`,
    a `.ok data` outcome is a resolved response whose `data` field is
    the parsed body.  `JSON.stringify` is abstracted away: bodies are
    kept structural.
  * `runInNewSpan` (genkit/tracing, not part of the inspected sources) is
    modelled by explicit state passing: each evaluation returns the final
    span metadata record, the ordered list of HTTP requests issued, and
    the operation's result (`Except` models a thrown JS error).
  * a zod `responseSchema` is caller supplied and arbitrary, so it is
    modelled as an arbitrary function `parse : Json → Except String Json`
    (`.error e` models `responseSchema.parse` throwing with message `e`).
-/

/-- JSON-like structured values exchanged with the evaluation providers.
`null` stands for both JSON null and an absent / `undefined` object field. -/
inductive Json where
  | null : Json
  | bool : Bool → Json
  | num : Int → Json
  | str : String → Json
  | arr : List Json → Json
  | obj : List (String × Json) → Json

/-- One HTTP request as handed to `client.request`. -/
structure HttpRequest where
  url : String
  method : String
  body : Json
  headers : List (String × String)

/-- The span metadata record produced by one `runInNewSpan` scope:
the code sets `metadata.input` before the external call and
`metadata.output` right after the first call succeeds. -/
structure SpanRecord where
  name : String
  input : Option Json
  output : Option Json

/-- The two ways an evaluation can throw: `transport e` is a rejected
`client.request` promise propagated unchanged (the code has no try/catch
around the call), and `parse url e` is the
`new Error("Error parsing " ++ url ++ " API response: " ++ e)` thrown
from the catch block around `responseSchema.parse`. -/
inductive EvalError where
  | transport : String → EvalError
  | parse : String → String → EvalError
deriving Repr, DecidableEq

/-- The provider URL an evaluation failure is tagged with, if any:
only the parse-error message embeds a URL. -/
def EvalError.taggedUrl : EvalError → Option String
  | .transport _ => none
  | .parse url _ => some url

/-- A normalized evaluation score (genkit/evaluator `Score`): a numeric or
categorical result plus a free-text explanation. -/
structure Score where
  score : Json
  explanation : Option String

/-- One evaluation test case (genkit/evaluator `BaseEvalDataPoint`). -/
structure BaseEvalDataPoint where
  testCaseId : String
  input : Json

/-- The value returned by the evaluator handler defined in `create`:
`\x7b evaluation: responseHandler(response), testCaseId: datapoint.testCaseId \x7d`. -/
structure EvalResult where
  evaluation : Score
  testCaseId : String

/-- The evaluator configuration passed to `EvaluatorFactory.create`
(the caller supplied `responseSchema` and the two handler functions are
modelled as separate parameters). `checksEval?: boolean` with `undefined`
falsy is modelled as a `Bool`. -/
structure EvalConfig where
  metric : String
  displayName : String
  definition : String
  checksEval : Bool
deriving Repr, DecidableEq

/-- `EvaluatorFactory` construction state.  The `auth: GoogleAuth` member
is absorbed into the `http` oracle; `location` and `projectId` are the
constructor arguments the evaluation methods may read. -/
structure EvaluatorFactory where
  location : String
  projectId : String
deriving Repr, DecidableEq

/-- The evaluator action name `create` registers:
`checks/` followed by the lower-cased metric name. -/
def EvaluatorFactory.evaluatorName (cfg : EvalConfig) : String :=
  "checks/" ++ cfg.metric.toLower

/-- The constant URL used by `checksEvalInstance` and by the hardcoded
second call inside `evaluateInstances`. -/
def checksUrl : String :=
  "https://checks.googleapis.com/v1alpha/aisafety:classifyContent"

/-- Modelled from the spec: the opaque client identification header constant
`GENKIT_CLIENT_HEADER` imported from the genkit core, whose value is not part
of the inspected sources; no claim depends on its value. -/
def GENKIT_CLIENT_HEADER : String := "genkit-client"

/-- `projects/(projectId)/locations/(location)` as built at the start of
`evaluateInstances`. -/
def EvaluatorFactory.locationName (f : EvaluatorFactory) : String :=
  "projects/" ++ f.projectId ++ "/locations/" ++ f.location

/-- The `evaluateInstances` endpoint URL,
`https://(location)-aiplatform.googleapis.com/v1beta1/(locationName):evaluateInstances`. -/
def EvaluatorFactory.evaluateInstancesUrl (f : EvaluatorFactory) : String :=
  "https://" ++ f.location ++ "-aiplatform.googleapis.com/v1beta1/" ++
    f.locationName ++ ":evaluateInstances"

/-- JS object spread `\x7b ...base, ...extra \x7d` on association lists: keys of
`extra` override keys of `base`; a base key overridden by `extra` keeps
`extra`'s position here (JS keeps the base position, which no claim
distinguishes since field values agree). -/
def spreadInto (base : List (String × Json)) (extra : List (String × Json)) :
    List (String × Json) :=
  base.filter (fun kv => extra.all (fun kv2 => kv2.1 != kv.1)) ++ extra

/-- The request `checksEvalInstance` hands to `client.request`: the constant
classifyContent URL, the copied partial request `\x7b ...partialRequest \x7d`
as body, and constant headers. -/
def checksRequest (partReq : List (String × Json)) : HttpRequest :=
  { url := checksUrl
    method := "POST"
    body := Json.obj partReq
    headers := [("X-Goog-User-Project", "checks-api-370419"),
                ("Content-Type", "application/json")] }

/-- The hardcoded body of the stray second call inside `evaluateInstances`. -/
def hardcodedChecksBody : Json :=
  Json.obj
    [("input", Json.obj
        [("text_input", Json.obj
            [("content", Json.str "I hate you and all people on earth")])]),
     ("policies", Json.obj [("policy_type", Json.str "HARASSMENT")])]

/-- The stray second request issued by `evaluateInstances`, with its
hardcoded URL, body and headers. -/
def hardcodedChecksRequest : HttpRequest :=
  { url := checksUrl
    method := "POST"
    body := hardcodedChecksBody
    headers := [("X-Goog-User-Project", "checks-api-370419"),
                ("Content-Type", "application/json")] }

/-- The main request `evaluateInstances` hands to `client.request`: body is
`\x7b location: locationName, ...partialRequest \x7d`, URL is the aiplatform
evaluateInstances endpoint, header carries the genkit client marker. -/
def EvaluatorFactory.mainRequest (f : EvaluatorFactory)
    (partReq : List (String × Json)) : HttpRequest :=
  { url := f.evaluateInstancesUrl
    method := "POST"
    body := Json.obj (spreadInto [("location", Json.str f.locationName)] partReq)
    headers := [("X-Goog-Api-Client", GENKIT_CLIENT_HEADER)] }

/-- `EvaluatorFactory.checksEvalInstance`: runs in a span named
`EvaluationService#evaluateInstances`, sets `metadata.input` to the copied
request, issues exactly one call to the constant classifyContent URL, sets
`metadata.output` to the response data on call success, then parses the data
with the response schema, wrapping a parse failure in an error tagged with
the URL.  The method reads neither `location` nor `projectId` from `this`. -/
def EvaluatorFactory.checksEvalInstance (_f : EvaluatorFactory)
    (http : HttpRequest → Except String Json)
    (partReq : List (String × Json))
    (parse : Json → Except String Json) :
    SpanRecord × List HttpRequest × Except EvalError Json :=
  let req := checksRequest partReq
  let meta0 : SpanRecord :=
    { name := "EvaluationService#evaluateInstances"
      input := some (Json.obj partReq)
      output := none }
  match http req with
  | .error e => (meta0, [req], .error (.transport e))
  | .ok data =>
    match parse data with
    | .error pe =>
        ({ meta0 with output := some data }, [req], .error (.parse checksUrl pe))
    | .ok v => ({ meta0 with output := some data }, [req], .ok v)

/-- `EvaluatorFactory.evaluateInstances`: runs in a span named
`EvaluationService#evaluateInstances`, sets `metadata.input` to the request
(the partial request with the `location` field spread in), issues the main
call to the aiplatform endpoint, sets `metadata.output` to its response data
on success, then issues the stray hardcoded classifyContent call (whose
response data is only logged), and finally parses the FIRST call's data with
the response schema, wrapping a parse failure in an error tagged with the
main URL.  A rejection of either call propagates unwrapped. -/
def EvaluatorFactory.evaluateInstances (f : EvaluatorFactory)
    (http : HttpRequest → Except String Json)
    (partReq : List (String × Json))
    (parse : Json → Except String Json) :
    SpanRecord × List HttpRequest × Except EvalError Json :=
  let req := f.mainRequest partReq
  let meta0 : SpanRecord :=
    { name := "EvaluationService#evaluateInstances"
      input := some req.body
      output := none }
  match http req with
  | .error e => (meta0, [req], .error (.transport e))
  | .ok data =>
    let meta1 : SpanRecord := { meta0 with output := some data }
    match http hardcodedChecksRequest with
    | .error e2 => (meta1, [req, hardcodedChecksRequest], .error (.transport e2))
    | .ok _ =>
      match parse data with
      | .error pe =>
          (meta1, [req, hardcodedChecksRequest],
            .error (.parse f.evaluateInstancesUrl pe))
      | .ok v => (meta1, [req, hardcodedChecksRequest], .ok v)

/-- The evaluator handler that `EvaluatorFactory.create` registers: picks
`checksEvalInstance` when `config.checksEval` is set and `evaluateInstances`
otherwise, applies the caller supplied `toRequest` to the datapoint before
the call and the caller supplied `responseHandler` to the parsed response
after it, and pairs the score with the datapoint's `testCaseId`. -/
def EvaluatorFactory.evaluate (f : EvaluatorFactory) (cfg : EvalConfig)
    (toRequest : BaseEvalDataPoint → List (String × Json))
    (parse : Json → Except String Json)
    (responseHandler : Json → Score)
    (http : HttpRequest → Except String Json)
    (datapoint : BaseEvalDataPoint) :
    SpanRecord × List HttpRequest × Except EvalError EvalResult :=
  let r :=
    if cfg.checksEval then
      f.checksEvalInstance http (toRequest datapoint) parse
    else
      f.evaluateInstances http (toRequest datapoint) parse
  match r with
  | (span, trace, .error e) => (span, trace, .error e)
  | (span, trace, .ok v) =>
      (span, trace,
        .ok { evaluation := responseHandler v, testCaseId := datapoint.testCaseId })

/-- Field lookup in a JS object: a missing field reads as `undefined`,
modelled by `Json.null`. -/
def lookupField (kvs : List (String × Json)) (k : String) : Json :=
  match kvs.find? (fun kv => kv.1 == k) with
  | some kv => kv.2
  | none => Json.null

/-- Modelled from the spec: the Schema Validator's shape language (§4.2),
covering the declared response shapes as tagged unions.  `sUndef` is the
TypeScript `undefined` field type (matched by an absent field), `sObject`
lists the declared fields, `sUnion` is a tagged union tried left to right. -/
inductive Schema where
  | sUndef : Schema
  | sString : Schema
  | sNumber : Schema
  | sObject : List (String × Schema) → Schema
  | sUnion : List Schema → Schema

mutual

/-- Modelled from the spec: `validate(shape, value)` of the Schema
Validator (§4.2), a pure structural check; an object field whose declared
shape is `sUndef` must read as `undefined`, a union matches when some
variant matches. -/
def validate : Schema → Json → Bool
  | .sUndef, .null => true
  | .sUndef, _ => false
  | .sString, .str _ => true
  | .sString, _ => false
  | .sNumber, .num _ => true
  | .sNumber, _ => false
  | .sObject fields, .obj kvs => validateFields fields kvs
  | .sObject _, _ => false
  | .sUnion variants, v => validateAny variants v

/-- Every declared field of an object shape validates against the value
read from the object (missing fields read as `undefined`). -/
def validateFields : List (String × Schema) → List (String × Json) → Bool
  | [], _ => true
  | (k, s) :: rest, kvs => validate s (lookupField kvs k) && validateFields rest kvs

/-- Some variant of a union shape accepts the value. -/
def validateAny : List Schema → Json → Bool
  | [], _ => false
  | s :: rest, v => validate s v || validateAny rest v

end

/-- The documented Content Part shape
(docs/reference/js/ai/functions/index.md): a tagged union of the text-only
variant (media undefined, text a string) and the media-only variant (media
an object with contentType and url strings, text undefined). -/
def partSchema : Schema :=
  Schema.sUnion
    [Schema.sObject [("media", Schema.sUndef), ("text", Schema.sString)],
     Schema.sObject
       [("media", Schema.sObject
           [("contentType", Schema.sString), ("url", Schema.sString)]),
        ("text", Schema.sUndef)]]

/-- One incremental unit of a streaming generation response; `content` holds
the texts of the chunk's Content Parts in order. -/
structure GenerateResponseChunk where
  content : List String

/-- A final generation response message; `content` holds the texts of its
Content Parts in order. -/
structure GenerateResponse where
  content : List String

/-- Concatenated text of a response's Content Parts, as the streaming test
folds over `final.Candidates[0].Message.Content`. -/
def GenerateResponse.text (r : GenerateResponse) : String :=
  r.content.foldr (fun t acc => t ++ acc) ""

/-- Modelled from the spec: the Generation Orchestrator's non-streaming
final response (§4.4, §3 StreamChunk) for a fixed provider behavior given
as the list of StreamChunks the model emits — the final aggregate carries
all chunks' Content Parts in emission order.  The orchestrator itself is
not among the inspected sources; only its live test (TestLive/streaming)
is. -/
def runNonStreaming (chunks : List GenerateResponseChunk) : GenerateResponse :=
  { content := (chunks.map GenerateResponseChunk.content).flatten }

/-- Modelled from the spec: the streaming mode of the same orchestrated
call — each StreamChunk is delivered in emission order to the caller's
callback, which appends the chunk's text to an accumulator exactly as the
TestLive/streaming callback does. -/
def runStreaming (chunks : List GenerateResponseChunk) : String :=
  chunks.foldl
    (fun acc c => acc ++ c.content.foldr (fun t acc2 => t ++ acc2) "") ""

/-- A sample factory configuration for the concrete runs below. -/
def sampleFactory : EvaluatorFactory :=
  { location := "us-central1", projectId := "proj-1" }

/-- A sample datapoint. -/
def sampleDp : BaseEvalDataPoint :=
  { testCaseId := "case-1", input := Json.str "hello" }

/-- A sample caller supplied request builder. -/
def sampleToRequest : BaseEvalDataPoint → List (String × Json) :=
  fun dp => [("instances", dp.input)]

/-- A schema whose parse accepts every value unchanged. -/
def parseAccept : Json → Except String Json := fun v => Except.ok v

/-- A schema whose parse always throws with message `bad`. -/
def parseReject : Json → Except String Json := fun _ => Except.error "bad"

/-- A sample caller supplied response handler. -/
def sampleHandler : Json → Score :=
  fun v => { score := v, explanation := some "handled" }

/-- A metric config selecting the checks (content classification) strategy. -/
def checksCfg : EvalConfig :=
  { metric := "HARASSMENT", displayName := "Harassment"
    definition := "d", checksEval := true }

/-- A metric config selecting the evaluate-instances strategy. -/
def vertexCfg : EvalConfig :=
  { metric := "DANGEROUS_CONTENT", displayName := "Dangerous Content"
    definition := "d", checksEval := false }

/-- A sample well-formed provider response body. -/
def sampleData : Json :=
  Json.obj [("score", Json.num 1), ("explanation", Json.str "because")]

/-- An oracle whose every call fails (network refused). -/
def httpFail : HttpRequest → Except String Json :=
  fun _ => Except.error "ECONNREFUSED"

/-- An oracle whose every call resolves with `sampleData`. -/
def httpOk : HttpRequest → Except String Json :=
  fun _ => Except.ok sampleData

/-- An oracle resolving the main aiplatform call with `sampleData` but
rejecting every call to the classifyContent URL with message `boom`. -/
def httpMainOnly : HttpRequest → Except String Json :=
  fun r => if r.url == checksUrl then Except.error "boom" else Except.ok sampleData

/-- An oracle agreeing with `httpMainOnly` away from the classifyContent URL
but resolving that URL with the string `A`. -/
def httpSecondA : HttpRequest → Except String Json :=
  fun r => if r.url == checksUrl then Except.ok (Json.str "A") else Except.ok sampleData

/-- An oracle agreeing with `httpMainOnly` away from the classifyContent URL
but resolving that URL with the string `B`. -/
def httpSecondB : HttpRequest → Except String Json :=
  fun r => if r.url == checksUrl then Except.ok (Json.str "B") else Except.ok sampleData

/-- The span name is the same constant in every branch of
`checksEvalInstance`. -/
theorem checksEvalInstance_span_name (f : EvaluatorFactory)
    (http : HttpRequest → Except String Json)
    (partReq : List (String × Json)) (parse : Json → Except String Json) :
    (f.checksEvalInstance http partReq parse).1.name =
      "EvaluationService#evaluateInstances" := by
  unfold EvaluatorFactory.checksEvalInstance
  cases h : http (checksRequest partReq) with
  | error e => simp [h]
  | ok data =>
    cases hp : parse data with
    | error pe => simp [h, hp]
    | ok v => simp [h, hp]

/-- The span name is the same constant in every branch of
`evaluateInstances`. -/
theorem evaluateInstances_span_name (f : EvaluatorFactory)
    (http : HttpRequest → Except String Json)
    (partReq : List (String × Json)) (parse : Json → Except String Json) :
    (f.evaluateInstances http partReq parse).1.name =
      "EvaluationService#evaluateInstances" := by
  unfold EvaluatorFactory.evaluateInstances
  cases h : http (f.mainRequest partReq) with
  | error e => simp [h]
  | ok data =>
    cases h2 : http hardcodedChecksRequest with
    | error e2 => simp [h, h2]
    | ok d2 =>
      cases hp : parse data with
      | error pe => simp [h, h2, hp]
      | ok v => simp [h, h2, hp]

/-- `evaluate` keeps the span record of the strategy it ran. -/
theorem evaluate_span (f : EvaluatorFactory) (cfg : EvalConfig)
    (toRequest : BaseEvalDataPoint → List (String × Json))
    (parse : Json → Except String Json) (responseHandler : Json → Score)
    (http : HttpRequest → Except String Json) (dp : BaseEvalDataPoint) :
    (f.evaluate cfg toRequest parse responseHandler http dp).1 =
      (if cfg.checksEval then f.checksEvalInstance http (toRequest dp) parse
       else f.evaluateInstances http (toRequest dp) parse).1 := by
  unfold EvaluatorFactory.evaluate
  cases hr : (if cfg.checksEval then f.checksEvalInstance http (toRequest dp) parse
              else f.evaluateInstances http (toRequest dp) parse) with
  | mk span rest =>
    cases rest with
    | mk trace res =>
      cases res with
      | error e => simp [hr]
      | ok v => simp [hr]

/-- `evaluate` keeps the request trace of the strategy it ran. -/
theorem evaluate_trace (f : EvaluatorFactory) (cfg : EvalConfig)
    (toRequest : BaseEvalDataPoint → List (String × Json))
    (parse : Json → Except String Json) (responseHandler : Json → Score)
    (http : HttpRequest → Except String Json) (dp : BaseEvalDataPoint) :
    (f.evaluate cfg toRequest parse responseHandler http dp).2.1 =
      (if cfg.checksEval then f.checksEvalInstance http (toRequest dp) parse
       else f.evaluateInstances http (toRequest dp) parse).2.1 := by
  unfold EvaluatorFactory.evaluate
  cases hr : (if cfg.checksEval then f.checksEvalInstance http (toRequest dp) parse
              else f.evaluateInstances http (toRequest dp) parse) with
  | mk span rest =>
    cases rest with
    | mk trace res =>
      cases res with
      | error e => simp [hr]
      | ok v => simp [hr]

/-- `checksEvalInstance` issues exactly the one copied request, on every
outcome. -/
theorem checksEvalInstance_trace (f : EvaluatorFactory)
    (http : HttpRequest → Except String Json)
    (partReq : List (String × Json)) (parse : Json → Except String Json) :
    (f.checksEvalInstance http partReq parse).2.1 = [checksRequest partReq] := by
  unfold EvaluatorFactory.checksEvalInstance
  cases h : http (checksRequest partReq) with
  | error e => simp [h]
  | ok data =>
    cases hp : parse data with
    | error pe => simp [h, hp]
    | ok v => simp [h, hp]

/-- A rejected call leaves `checksEvalInstance`'s span without output and
propagates the transport failure unwrapped. -/
theorem checksEvalInstance_call_failed (f : EvaluatorFactory)
    (http : HttpRequest → Except String Json)
    (partReq : List (String × Json)) (parse : Json → Except String Json)
    (e : String) (h : http (checksRequest partReq) = Except.error e) :
    f.checksEvalInstance http partReq parse =
      ({ name := "EvaluationService#evaluateInstances"
         input := some (Json.obj partReq), output := none },
       [checksRequest partReq], Except.error (EvalError.transport e)) := by
  unfold EvaluatorFactory.checksEvalInstance
  simp [h]

/-- A resolved call sets `checksEvalInstance`'s span output to the response
data and hands the data to the schema parse, wrapping a parse failure
tagged with the classifyContent URL. -/
theorem checksEvalInstance_call_ok (f : EvaluatorFactory)
    (http : HttpRequest → Except String Json)
    (partReq : List (String × Json)) (parse : Json → Except String Json)
    (data : Json) (h : http (checksRequest partReq) = Except.ok data) :
    f.checksEvalInstance http partReq parse =
      ({ name := "EvaluationService#evaluateInstances"
         input := some (Json.obj partReq), output := some data },
       [checksRequest partReq],
       match parse data with
       | Except.error pe => Except.error (EvalError.parse checksUrl pe)
       | Except.ok v => Except.ok v) := by
  unfold EvaluatorFactory.checksEvalInstance
  cases hp : parse data with
  | error pe => simp [h, hp]
  | ok v => simp [h, hp]

/-- A rejected main call leaves `evaluateInstances`'s span without output,
issues no second call, and propagates the transport failure unwrapped. -/
theorem evaluateInstances_call_failed (f : EvaluatorFactory)
    (http : HttpRequest → Except String Json)
    (partReq : List (String × Json)) (parse : Json → Except String Json)
    (e : String) (h : http (f.mainRequest partReq) = Except.error e) :
    f.evaluateInstances http partReq parse =
      ({ name := "EvaluationService#evaluateInstances"
         input := some (f.mainRequest partReq).body, output := none },
       [f.mainRequest partReq], Except.error (EvalError.transport e)) := by
  unfold EvaluatorFactory.evaluateInstances
  simp [h]

/-- After a resolved main call, a rejected stray second call fails the whole
`evaluateInstances` run with the second call's transport failure, even
though the first response was already recorded as the span output. -/
theorem evaluateInstances_second_failed (f : EvaluatorFactory)
    (http : HttpRequest → Except String Json)
    (partReq : List (String × Json)) (parse : Json → Except String Json)
    (data : Json) (e2 : String)
    (h : http (f.mainRequest partReq) = Except.ok data)
    (h2 : http hardcodedChecksRequest = Except.error e2) :
    f.evaluateInstances http partReq parse =
      ({ name := "EvaluationService#evaluateInstances"
         input := some (f.mainRequest partReq).body, output := some data },
       [f.mainRequest partReq, hardcodedChecksRequest],
       Except.error (EvalError.transport e2)) := by
  unfold EvaluatorFactory.evaluateInstances
  simp [h, h2]

/-- When both calls resolve, `evaluateInstances` parses the FIRST call's
data only — a parse failure is wrapped tagged with the aiplatform URL —
and the second call's data does not appear anywhere in the result. -/
theorem evaluateInstances_second_ok (f : EvaluatorFactory)
    (http : HttpRequest → Except String Json)
    (partReq : List (String × Json)) (parse : Json → Except String Json)
    (data d2 : Json)
    (h : http (f.mainRequest partReq) = Except.ok data)
    (h2 : http hardcodedChecksRequest = Except.ok d2) :
    f.evaluateInstances http partReq parse =
      ({ name := "EvaluationService#evaluateInstances"
         input := some (f.mainRequest partReq).body, output := some data },
       [f.mainRequest partReq, hardcodedChecksRequest],
       match parse data with
       | Except.error pe => Except.error (EvalError.parse f.evaluateInstancesUrl pe)
       | Except.ok v => Except.ok v) := by
  unfold EvaluatorFactory.evaluateInstances
  cases hp : parse data with
  | error pe => simp [h, h2, hp]
  | ok v => simp [h, h2, hp]

/-- `evaluate` forwards its strategy's failure unchanged and rebuilds a
success into the handler's score paired with the datapoint's id. -/
theorem evaluate_result (f : EvaluatorFactory) (cfg : EvalConfig)
    (toRequest : BaseEvalDataPoint → List (String × Json))
    (parse : Json → Except String Json) (responseHandler : Json → Score)
    (http : HttpRequest → Except String Json) (dp : BaseEvalDataPoint) :
    (f.evaluate cfg toRequest parse responseHandler http dp).2.2 =
      match (if cfg.checksEval then f.checksEvalInstance http (toRequest dp) parse
             else f.evaluateInstances http (toRequest dp) parse).2.2 with
      | Except.error e => Except.error e
      | Except.ok v =>
          Except.ok { evaluation := responseHandler v, testCaseId := dp.testCaseId } := by
  unfold EvaluatorFactory.evaluate
  cases hr : (if cfg.checksEval then f.checksEvalInstance http (toRequest dp) parse
              else f.evaluateInstances http (toRequest dp) parse) with
  | mk span rest =>
    cases rest with
    | mk trace res =>
      cases res with
      | error e => simp [hr]
      | ok v => simp [hr]

/-- C10: `checksEvalInstance` ignores the factory's configured `projectId`
and `location` — for every factory it issues exactly one request, to the
constant URL `https://checks.googleapis.com/v1alpha/aisafety:classifyContent`
with the constant `X-Goog-User-Project: checks-api-370419` header, and its
entire result is independent of the factory's constructor arguments. -/
theorem C10_checks_constants (f g : EvaluatorFactory)
    (http : HttpRequest → Except String Json)
    (partReq : List (String × Json)) (parse : Json → Except String Json) :
    (f.checksEvalInstance http partReq parse).2.1 = [checksRequest partReq] ∧
    (checksRequest partReq).url =
      "https://checks.googleapis.com/v1alpha/aisafety:classifyContent" ∧
    (checksRequest partReq).headers =
      [("X-Goog-User-Project", "checks-api-370419"),
       ("Content-Type", "application/json")] ∧
    f.checksEvalInstance http partReq parse = g.checksEvalInstance http partReq parse :=
  ⟨checksEvalInstance_trace f http partReq parse, rfl, rfl, rfl⟩

/-- C7 (amended): every evaluation runs its external call in a span whose
name is the constant `EvaluationService#evaluateInstances`, whatever the
factory, metric config, datapoint or endpoint strategy — so the name is
trivially fixed per metric, but it does not identify the metric and does
not distinguish metrics or strategies. -/
theorem C7_span_name_constant (f : EvaluatorFactory) (cfg : EvalConfig)
    (toRequest : BaseEvalDataPoint → List (String × Json))
    (parse : Json → Except String Json) (responseHandler : Json → Score)
    (http : HttpRequest → Except String Json) (dp : BaseEvalDataPoint) :
    (f.evaluate cfg toRequest parse responseHandler http dp).1.name =
      "EvaluationService#evaluateInstances" := by
  rw [evaluate_span]
  cases hc : cfg.checksEval with
  | false => simp [hc, evaluateInstances_span_name]
  | true => simp [hc, checksEvalInstance_span_name]

/-- C7 is refuted as stated: two evaluations with distinct metrics AND
distinct endpoint strategies still produce the same span name, so span
names distinguish neither metrics nor strategies. -/
theorem C7_counterexample :
    checksCfg.metric ≠ vertexCfg.metric ∧
    checksCfg.checksEval ≠ vertexCfg.checksEval ∧
    (sampleFactory.evaluate checksCfg sampleToRequest parseAccept sampleHandler
        httpOk sampleDp).1.name =
      (sampleFactory.evaluate vertexCfg sampleToRequest parseAccept sampleHandler
        httpOk sampleDp).1.name :=
  ⟨by decide, by decide, rfl⟩

/-- C6 (amended): the span's `output` snapshot is governed by the external
call alone — it is absent exactly when the (first) call is rejected, and it
is set to the response data as soon as that call resolves, INCLUDING runs
in which the evaluation afterwards fails (schema parse failure, or the
stray second call's rejection); hence a failed operation's span record can
carry an output snapshot. -/
theorem C6_output_tracks_call (f : EvaluatorFactory) (cfg : EvalConfig)
    (toRequest : BaseEvalDataPoint → List (String × Json))
    (parse : Json → Except String Json) (responseHandler : Json → Score)
    (http : HttpRequest → Except String Json) (dp : BaseEvalDataPoint) :
    (∀ e, http (if cfg.checksEval then checksRequest (toRequest dp)
                else f.mainRequest (toRequest dp)) = Except.error e →
       (f.evaluate cfg toRequest parse responseHandler http dp).1.output = none) ∧
    (∀ data, http (if cfg.checksEval then checksRequest (toRequest dp)
                   else f.mainRequest (toRequest dp)) = Except.ok data →
       (f.evaluate cfg toRequest parse responseHandler http dp).1.output = some data) := by
  constructor
  · intro e he
    rw [evaluate_span]
    cases hc : cfg.checksEval with
    | false =>
      simp only [hc, Bool.false_eq_true, if_false] at he ⊢
      rw [evaluateInstances_call_failed f http (toRequest dp) parse e he]
    | true =>
      simp only [hc, if_true] at he ⊢
      rw [checksEvalInstance_call_failed f http (toRequest dp) parse e he]
  · intro data he
    rw [evaluate_span]
    cases hc : cfg.checksEval with
    | false =>
      simp only [hc, Bool.false_eq_true, if_false] at he ⊢
      cases h2 : http hardcodedChecksRequest with
      | error e2 =>
        rw [evaluateInstances_second_failed f http (toRequest dp) parse data e2 he h2]
      | ok d2 =>
        rw [evaluateInstances_second_ok f http (toRequest dp) parse data d2 he h2]
    | true =>
      simp only [hc, if_true] at he ⊢
      rw [checksEvalInstance_call_ok f http (toRequest dp) parse data he]

/-- Witness for C6: a concrete rejected call yields a span without output;
a concrete resolved call whose data then fails the schema parse still
yields a span carrying the response data as output. -/
theorem C6_output_tracks_call_witness :
    (sampleFactory.evaluate checksCfg sampleToRequest parseAccept sampleHandler
        httpFail sampleDp).1.output = none ∧
    (sampleFactory.evaluate checksCfg sampleToRequest parseReject sampleHandler
        httpOk sampleDp).1.output = some sampleData :=
  ⟨(C6_output_tracks_call sampleFactory checksCfg sampleToRequest parseAccept
      sampleHandler httpFail sampleDp).1 "ECONNREFUSED" rfl,
   (C6_output_tracks_call sampleFactory checksCfg sampleToRequest parseReject
      sampleHandler httpOk sampleDp).2 sampleData rfl⟩

/-- C6 is refuted as stated: a run whose call resolves but whose response
fails validation is a failed operation whose span metadata nevertheless
carries the output snapshot. -/
theorem C6_counterexample :
    (sampleFactory.evaluate checksCfg sampleToRequest parseReject sampleHandler
        httpOk sampleDp).2.2 = Except.error (EvalError.parse checksUrl "bad") ∧
    (sampleFactory.evaluate checksCfg sampleToRequest parseReject sampleHandler
        httpOk sampleDp).1.output = some sampleData :=
  ⟨rfl, rfl⟩

/-- C4 (amended): the `checksEval` flag selects the endpoint strategy — the
first request of every evaluation goes to the constant classifyContent URL
when the flag is set and to the factory's aiplatform evaluateInstances URL
otherwise.  The checks strategy sends exactly the partial request built by
`toRequest` as body; the evaluate-instances strategy does NOT send it
unmodified — it spreads a `location` field into it first. -/
theorem C4_strategies (f : EvaluatorFactory) (cfg : EvalConfig)
    (toRequest : BaseEvalDataPoint → List (String × Json))
    (parse : Json → Except String Json) (responseHandler : Json → Score)
    (http : HttpRequest → Except String Json) (dp : BaseEvalDataPoint) :
    (f.evaluate cfg toRequest parse responseHandler http dp).2.1.head? =
      some (if cfg.checksEval then checksRequest (toRequest dp)
            else f.mainRequest (toRequest dp)) ∧
    (checksRequest (toRequest dp)).url = checksUrl ∧
    (checksRequest (toRequest dp)).body = Json.obj (toRequest dp) ∧
    (f.mainRequest (toRequest dp)).url = f.evaluateInstancesUrl ∧
    (f.mainRequest (toRequest dp)).body =
      Json.obj (spreadInto [("location", Json.str f.locationName)] (toRequest dp)) := by
  refine ⟨?_, rfl, rfl, rfl, rfl⟩
  rw [evaluate_trace]
  cases hc : cfg.checksEval with
  | false =>
    simp only [hc, Bool.false_eq_true, if_false]
    cases he : http (f.mainRequest (toRequest dp)) with
    | error e =>
      rw [evaluateInstances_call_failed f http (toRequest dp) parse e he]
      rfl
    | ok data =>
      cases h2 : http hardcodedChecksRequest with
      | error e2 =>
        rw [evaluateInstances_second_failed f http (toRequest dp) parse data e2 he h2]
        rfl
      | ok d2 =>
        rw [evaluateInstances_second_ok f http (toRequest dp) parse data d2 he h2]
        rfl
  | true =>
    simp only [hc, if_true]
    rw [checksEvalInstance_trace]
    rfl

/-- C4 is refuted as stated: with an empty partial request, the
evaluate-instances strategy sends a body carrying a `location` field — not
the unmodified (empty) partial request. -/
theorem C4_counterexample :
    (sampleFactory.evaluate vertexCfg (fun _ => []) parseAccept sampleHandler
        httpOk sampleDp).2.1.head? = some (sampleFactory.mainRequest []) ∧
    (sampleFactory.mainRequest []).body =
      Json.obj [("location", Json.str "projects/proj-1/locations/us-central1")] ∧
    Json.obj [("location", Json.str "projects/proj-1/locations/us-central1")] ≠
      Json.obj [] := by
  refine ⟨rfl, rfl, ?_⟩
  intro h
  injection h with h2
  exact List.noConfusion h2

/-- C1 (amended): if the external evaluation call is rejected, `evaluate`
fails by propagating the transport failure unchanged — NOT wrapped in a
request error and NOT tagged with any provider URL; if the call resolves
but the response fails schema validation (and, under the evaluate-instances
strategy, the stray second call also resolves), `evaluate` fails with the
validation failure wrapped and tagged with the originating provider URL,
and no partially built Score is returned. -/
theorem C1_failure_modes (f : EvaluatorFactory) (cfg : EvalConfig)
    (toRequest : BaseEvalDataPoint → List (String × Json))
    (parse : Json → Except String Json) (responseHandler : Json → Score)
    (http : HttpRequest → Except String Json) (dp : BaseEvalDataPoint) :
    (∀ e, http (if cfg.checksEval then checksRequest (toRequest dp)
                else f.mainRequest (toRequest dp)) = Except.error e →
       (f.evaluate cfg toRequest parse responseHandler http dp).2.2 =
         Except.error (EvalError.transport e) ∧
       EvalError.taggedUrl (EvalError.transport e) = none) ∧
    (∀ data pe, http (if cfg.checksEval then checksRequest (toRequest dp)
                      else f.mainRequest (toRequest dp)) = Except.ok data →
       parse data = Except.error pe →
       (cfg.checksEval = true ∨ (∃ d2, http hardcodedChecksRequest = Except.ok d2)) →
       (f.evaluate cfg toRequest parse responseHandler http dp).2.2 =
         Except.error (EvalError.parse
           (if cfg.checksEval then checksUrl else f.evaluateInstancesUrl) pe) ∧
       EvalError.taggedUrl (EvalError.parse
           (if cfg.checksEval then checksUrl else f.evaluateInstancesUrl) pe) =
         some (if cfg.checksEval then checksUrl else f.evaluateInstancesUrl)) := by
  constructor
  · intro e he
    refine ⟨?_, rfl⟩
    rw [evaluate_result]
    rcases Bool.eq_false_or_eq_true cfg.checksEval with hc | hc
    · rw [if_pos hc] at he
      rw [if_pos hc]
      rw [checksEvalInstance_call_failed f http (toRequest dp) parse e he]
    · have hnc : ¬(cfg.checksEval = true) := by simp [hc]
      rw [if_neg hnc] at he
      rw [if_neg hnc]
      rw [evaluateInstances_call_failed f http (toRequest dp) parse e he]
  · intro data pe he hp hside
    refine ⟨?_, rfl⟩
    rw [evaluate_result]
    rcases Bool.eq_false_or_eq_true cfg.checksEval with hc | hc
    · rw [if_pos hc] at he
      rw [if_pos hc, if_pos hc]
      rw [checksEvalInstance_call_ok f http (toRequest dp) parse data he]
      simp [hp]
    · have hnc : ¬(cfg.checksEval = true) := by simp [hc]
      rw [if_neg hnc] at he
      rw [if_neg hnc, if_neg hnc]
      rcases hside with h | ⟨d2, h2⟩
      · exact absurd h hnc
      · rw [evaluateInstances_second_ok f http (toRequest dp) parse data d2 he h2]
        simp [hp]

/-- Witness for C1: a concrete rejected call propagates the raw untagged
transport failure; a concrete resolved call whose data fails the schema
parse yields the wrapped error tagged with the classifyContent URL. -/
theorem C1_failure_modes_witness :
    (sampleFactory.evaluate checksCfg sampleToRequest parseAccept sampleHandler
        httpFail sampleDp).2.2 = Except.error (EvalError.transport "ECONNREFUSED") ∧
    EvalError.taggedUrl (EvalError.transport "ECONNREFUSED") = none ∧
    (sampleFactory.evaluate checksCfg sampleToRequest parseReject sampleHandler
        httpOk sampleDp).2.2 = Except.error (EvalError.parse checksUrl "bad") ∧
    EvalError.taggedUrl (EvalError.parse checksUrl "bad") = some checksUrl :=
  have h1 := (C1_failure_modes sampleFactory checksCfg sampleToRequest parseAccept
    sampleHandler httpFail sampleDp).1 "ECONNREFUSED" rfl
  have h2 := (C1_failure_modes sampleFactory checksCfg sampleToRequest parseReject
    sampleHandler httpOk sampleDp).2 sampleData "bad" rfl rfl (Or.inl rfl)
  ⟨h1.1, h1.2, h2.1, h2.2⟩

/-- C1 is refuted as stated: a concrete rejected external call makes
`evaluate` fail with the raw propagated transport failure, which carries no
provider URL tag at all. -/
theorem C1_counterexample :
    (sampleFactory.evaluate checksCfg sampleToRequest parseAccept sampleHandler
        httpFail sampleDp).2.2 = Except.error (EvalError.transport "ECONNREFUSED") ∧
    EvalError.taggedUrl (EvalError.transport "ECONNREFUSED") = none :=
  ⟨rfl, rfl⟩

/-- C2 (amended): under the checks strategy one evaluation issues exactly
one external call; under the evaluate-instances strategy it issues two —
the scored main call plus the stray hardcoded classifyContent call —
whenever the main call resolves, and the value returned is produced from
the first call's response alone. -/
theorem C2_call_counts (f : EvaluatorFactory) (cfg : EvalConfig)
    (toRequest : BaseEvalDataPoint → List (String × Json))
    (parse : Json → Except String Json) (responseHandler : Json → Score)
    (http : HttpRequest → Except String Json) (dp : BaseEvalDataPoint) :
    (cfg.checksEval = true →
       (f.evaluate cfg toRequest parse responseHandler http dp).2.1.length = 1) ∧
    (cfg.checksEval = false → ∀ data,
       http (f.mainRequest (toRequest dp)) = Except.ok data →
       (f.evaluate cfg toRequest parse responseHandler http dp).2.1.length = 2) ∧
    (cfg.checksEval = false → ∀ data d2,
       http (f.mainRequest (toRequest dp)) = Except.ok data →
       http hardcodedChecksRequest = Except.ok d2 →
       (f.evaluate cfg toRequest parse responseHandler http dp).2.2 =
         match parse data with
         | Except.error pe => Except.error (EvalError.parse f.evaluateInstancesUrl pe)
         | Except.ok v =>
             Except.ok { evaluation := responseHandler v, testCaseId := dp.testCaseId }) := by
  refine ⟨?_, ?_, ?_⟩
  · intro hc
    rw [evaluate_trace, if_pos hc, checksEvalInstance_trace]
    rfl
  · intro hc data he
    have hnc : ¬(cfg.checksEval = true) := by simp [hc]
    rw [evaluate_trace, if_neg hnc]
    cases h2 : http hardcodedChecksRequest with
    | error e2 =>
      rw [evaluateInstances_second_failed f http (toRequest dp) parse data e2 he h2]
      rfl
    | ok d2 =>
      rw [evaluateInstances_second_ok f http (toRequest dp) parse data d2 he h2]
      rfl
  · intro hc data d2 he h2
    have hnc : ¬(cfg.checksEval = true) := by simp [hc]
    rw [evaluate_result, if_neg hnc]
    rw [evaluateInstances_second_ok f http (toRequest dp) parse data d2 he h2]
    cases hp : parse data with
    | error pe => simp [hp]
    | ok v => simp [hp]

/-- Witness for C2: a concrete checks-strategy run issues one request; a
concrete evaluate-instances run issues two and scores the first call's
response. -/
theorem C2_call_counts_witness :
    (sampleFactory.evaluate checksCfg sampleToRequest parseAccept sampleHandler
        httpOk sampleDp).2.1.length = 1 ∧
    (sampleFactory.evaluate vertexCfg sampleToRequest parseAccept sampleHandler
        httpOk sampleDp).2.1.length = 2 ∧
    (sampleFactory.evaluate vertexCfg sampleToRequest parseAccept sampleHandler
        httpOk sampleDp).2.2 =
      Except.ok { evaluation := sampleHandler sampleData, testCaseId := "case-1" } :=
  ⟨(C2_call_counts sampleFactory checksCfg sampleToRequest parseAccept sampleHandler
      httpOk sampleDp).1 rfl,
   (C2_call_counts sampleFactory vertexCfg sampleToRequest parseAccept sampleHandler
      httpOk sampleDp).2.1 rfl sampleData rfl,
   (C2_call_counts sampleFactory vertexCfg sampleToRequest parseAccept sampleHandler
      httpOk sampleDp).2.2 rfl sampleData sampleData rfl rfl⟩

/-- C2 is refuted as stated: a concrete evaluation under the default
evaluate-instances strategy performs two external calls, not exactly one. -/
theorem C2_counterexample :
    (sampleFactory.evaluate vertexCfg sampleToRequest parseAccept sampleHandler
        httpOk sampleDp).2.1.length = 2 ∧ (2 : Nat) ≠ 1 :=
  ⟨rfl, by decide⟩

/-- C3 (amended): when the external evaluation call resolves with data that
validates against the declared response shape — and, under the
evaluate-instances strategy, the stray hardcoded second call also
resolves — `evaluate` returns the datapoint's `testCaseId` paired with the
caller supplied `responseHandler` applied to the validated response. -/
theorem C3_roundtrip (f : EvaluatorFactory) (cfg : EvalConfig)
    (toRequest : BaseEvalDataPoint → List (String × Json))
    (parse : Json → Except String Json) (responseHandler : Json → Score)
    (http : HttpRequest → Except String Json) (dp : BaseEvalDataPoint)
    (data v : Json)
    (hcall : http (if cfg.checksEval then checksRequest (toRequest dp)
                   else f.mainRequest (toRequest dp)) = Except.ok data)
    (hparse : parse data = Except.ok v)
    (hside : cfg.checksEval = true ∨ ∃ d2, http hardcodedChecksRequest = Except.ok d2) :
    (f.evaluate cfg toRequest parse responseHandler http dp).2.2 =
      Except.ok { evaluation := responseHandler v, testCaseId := dp.testCaseId } := by
  rw [evaluate_result]
  rcases Bool.eq_false_or_eq_true cfg.checksEval with hc | hc
  · rw [if_pos hc] at hcall
    rw [if_pos hc]
    rw [checksEvalInstance_call_ok f http (toRequest dp) parse data hcall]
    simp [hparse]
  · have hnc : ¬(cfg.checksEval = true) := by simp [hc]
    rw [if_neg hnc] at hcall
    rw [if_neg hnc]
    rcases hside with h | ⟨d2, h2⟩
    · exact absurd h hnc
    · rw [evaluateInstances_second_ok f http (toRequest dp) parse data d2 hcall h2]
      simp [hparse]

/-- Witness for C3: a concrete checks-strategy run with a schema-conforming
response returns the handler's score under the datapoint's id. -/
theorem C3_roundtrip_witness :
    (sampleFactory.evaluate checksCfg sampleToRequest parseAccept sampleHandler
        httpOk sampleDp).2.2 =
      Except.ok { evaluation := sampleHandler sampleData, testCaseId := "case-1" } :=
  C3_roundtrip sampleFactory checksCfg sampleToRequest parseAccept sampleHandler
    httpOk sampleDp sampleData sampleData rfl rfl (Or.inl rfl)

/-- C3 is refuted as stated: under the evaluate-instances strategy a
datapoint whose external evaluation response validates against the schema
can still fail — the stray hardcoded second call's rejection aborts the
evaluation. -/
theorem C3_counterexample :
    parseAccept sampleData = Except.ok sampleData ∧
    httpMainOnly (sampleFactory.mainRequest (sampleToRequest sampleDp)) =
      Except.ok sampleData ∧
    (sampleFactory.evaluate vertexCfg sampleToRequest parseAccept sampleHandler
        httpMainOnly sampleDp).2.2 = Except.error (EvalError.transport "boom") :=
  ⟨rfl, rfl, rfl⟩

/-- C9 (amended): the result of `evaluateInstances` is unchanged under any
two oracles that agree on the main request and both RESOLVE the hardcoded
second request with arbitrary (possibly different) data — the second call's
response data is discarded and never flows into the span record, the
request trace, or the returned value.  (A rejection of the second call, by
contrast, fails the whole evaluation.) -/
theorem C9_second_response_discarded (f : EvaluatorFactory)
    (o1 o2 : HttpRequest → Except String Json)
    (partReq : List (String × Json)) (parse : Json → Except String Json)
    (hmain : o1 (f.mainRequest partReq) = o2 (f.mainRequest partReq))
    (h1 : ∃ d1, o1 hardcodedChecksRequest = Except.ok d1)
    (h2 : ∃ d2, o2 hardcodedChecksRequest = Except.ok d2) :
    f.evaluateInstances o1 partReq parse = f.evaluateInstances o2 partReq parse := by
  obtain ⟨d1, h1⟩ := h1
  obtain ⟨d2, h2⟩ := h2
  cases hm : o1 (f.mainRequest partReq) with
  | error e =>
    rw [evaluateInstances_call_failed f o1 partReq parse e hm,
        evaluateInstances_call_failed f o2 partReq parse e (hmain ▸ hm)]
  | ok data =>
    rw [evaluateInstances_second_ok f o1 partReq parse data d1 hm h1,
        evaluateInstances_second_ok f o2 partReq parse data d2 (hmain ▸ hm) h2]

/-- Witness for C9: two concrete oracles whose second-call data differ
(`A` versus `B`) produce identical evaluateInstances results. -/
theorem C9_second_response_discarded_witness :
    sampleFactory.evaluateInstances httpSecondA (sampleToRequest sampleDp) parseAccept =
      sampleFactory.evaluateInstances httpSecondB (sampleToRequest sampleDp) parseAccept :=
  C9_second_response_discarded sampleFactory httpSecondA httpSecondB
    (sampleToRequest sampleDp) parseAccept rfl ⟨Json.str "A", rfl⟩ ⟨Json.str "B", rfl⟩

/-- C9 is refuted as stated: two runs whose first-call responses are
identical but whose second (hardcoded) call outcomes differ — one
resolving, one rejecting — return different values: the rejection of the
supposedly discarded call still fails the evaluation. -/
theorem C9_counterexample :
    httpSecondA (sampleFactory.mainRequest (sampleToRequest sampleDp)) =
      httpMainOnly (sampleFactory.mainRequest (sampleToRequest sampleDp)) ∧
    (sampleFactory.evaluateInstances httpSecondA (sampleToRequest sampleDp)
        parseAccept).2.2 = Except.ok sampleData ∧
    (sampleFactory.evaluateInstances httpMainOnly (sampleToRequest sampleDp)
        parseAccept).2.2 = Except.error (EvalError.transport "boom") :=
  ⟨rfl, rfl, rfl⟩

/-- Appending after a fold of text parts equals folding with the appendix
as initial accumulator. -/
theorem foldr_append_text (l : List String) (s : String) :
    l.foldr (fun t a => t ++ a) "" ++ s = l.foldr (fun t a => t ++ a) s := by
  induction l with
  | nil => exact String.empty_append s
  | cons t ts ih =>
    simp only [List.foldr_cons]
    rw [String.append_assoc, ih]

/-- Folding the streaming callback from any accumulator appends exactly the
aggregate text of the remaining chunks. -/
theorem runStreaming_from (chunks : List GenerateResponseChunk) (acc : String) :
    chunks.foldl (fun a c => a ++ c.content.foldr (fun t a2 => t ++ a2) "") acc =
      acc ++ (runNonStreaming chunks).text := by
  induction chunks generalizing acc with
  | nil =>
    simp only [List.foldl_nil, runNonStreaming, List.map_nil, List.flatten_nil,
      GenerateResponse.text, List.foldr_nil]
    exact (String.append_empty acc).symm
  | cons c rest ih =>
    simp only [List.foldl_cons]
    rw [ih, String.append_assoc]
    congr 1
    rw [foldr_append_text]
    simp [runNonStreaming, GenerateResponse.text, List.foldr_append]

/-- C5: streaming/non-streaming equivalence — for one fixed provider
behavior (the StreamChunks the model emits), the text accumulated by the
streaming callback over all chunks in emission order equals the text of
the corresponding non-streaming final response. -/
theorem C5_streaming_equivalence (chunks : List GenerateResponseChunk) :
    runStreaming chunks = (runNonStreaming chunks).text := by
  unfold runStreaming
  rw [runStreaming_from]
  exact String.empty_append _

/-- An undefined-typed field rejects every present (non-undefined) value. -/
theorem validate_sUndef_of_ne (v : Json) (h : v ≠ Json.null) :
    validate Schema.sUndef v = false := by
  cases v with
  | null => exact absurd rfl h
  | bool b => rfl
  | num n => rfl
  | str s => rfl
  | arr l => rfl
  | obj kvs => rfl

/-- The media variant's object shape unfolds on an object to its two
declared string field checks. -/
theorem validate_mediaObj (m : List (String × Json)) :
    validate (Schema.sObject
        [("contentType", Schema.sString), ("url", Schema.sString)])
      (Json.obj m) =
      (validate Schema.sString (lookupField m "contentType") &&
       (validate Schema.sString (lookupField m "url") && true)) :=
  rfl

/-- The documented Part shape unfolds on an object to the disjunction of
its two variants' field checks. -/
theorem validate_part (kvs : List (String × Json)) :
    validate partSchema (Json.obj kvs) =
      ((validate Schema.sUndef (lookupField kvs "media") &&
        (validate Schema.sString (lookupField kvs "text") && true)) ||
       ((validate (Schema.sObject
            [("contentType", Schema.sString), ("url", Schema.sString)])
           (lookupField kvs "media") &&
         (validate Schema.sUndef (lookupField kvs "text") && true)) || false)) :=
  rfl

/-- C8: Content Part union exclusivity — against the documented Part shape,
the Schema Validator rejects every object with both `text` and `media` set
and every object with neither set, and accepts an object with exactly one
of them set (text a string, or media an object carrying contentType and url
strings). -/
theorem C8_part_union_exclusivity (kvs : List (String × Json)) :
    (lookupField kvs "text" ≠ Json.null → lookupField kvs "media" ≠ Json.null →
       validate partSchema (Json.obj kvs) = false) ∧
    (lookupField kvs "text" = Json.null → lookupField kvs "media" = Json.null →
       validate partSchema (Json.obj kvs) = false) ∧
    (∀ t, lookupField kvs "text" = Json.str t →
       lookupField kvs "media" = Json.null →
       validate partSchema (Json.obj kvs) = true) ∧
    (∀ m ct u, lookupField kvs "text" = Json.null →
       lookupField kvs "media" = Json.obj m →
       lookupField m "contentType" = Json.str ct →
       lookupField m "url" = Json.str u →
       validate partSchema (Json.obj kvs) = true) := by
  refine ⟨?_, ?_, ?_, ?_⟩
  · intro ht hm
    rw [validate_part, validate_sUndef_of_ne _ hm, validate_sUndef_of_ne _ ht]
    simp
  · intro ht hm
    rw [validate_part, ht, hm]
    rfl
  · intro t ht hm
    rw [validate_part, ht, hm]
    rfl
  · intro m ct u ht hm hct hu
    rw [validate_part, ht, hm, validate_mediaObj, hct, hu]
    rfl

/-- Witness for C8: a Part with both fields rejected, neither rejected,
text-only accepted, media-only accepted, all at concrete values. -/
theorem C8_part_union_exclusivity_witness :
    validate partSchema (Json.obj
      [("text", Json.str "hello"),
       ("media", Json.obj
          [("contentType", Json.str "image/png"), ("url", Json.str "gs://b/x")])]) =
      false ∧
    validate partSchema (Json.obj []) = false ∧
    validate partSchema (Json.obj [("text", Json.str "hello")]) = true ∧
    validate partSchema (Json.obj
      [("media", Json.obj
          [("contentType", Json.str "image/png"), ("url", Json.str "gs://b/x")])]) =
      true :=
  ⟨(C8_part_union_exclusivity _).1
      (fun h => Json.noConfusion h) (fun h => Json.noConfusion h),
   (C8_part_union_exclusivity _).2.1 rfl rfl,
   (C8_part_union_exclusivity _).2.2.1 "hello" rfl rfl,
   (C8_part_union_exclusivity _).2.2.2
      [("contentType", Json.str "image/png"), ("url", Json.str "gs://b/x")]
      "image/png" "gs://b/x" rfl rfl rfl rfl⟩
